import Mathlib

/-!
Shallow embedding of the Genre CRUD controller
(`src/controllers/genreController.js` of express-locallibrary-tutorial)
together with the Mongoose/express-validator behaviour the handlers rely on.

The document database is modelled as an explicit state (`DB`) holding the
Genre and Book collections plus a counter supplying the fresh identifier that
Mongoose assigns when a document is constructed client-side.  Each HTTP
handler becomes a pure function from the state (and its request inputs) to
the new state and the response it sends.  `genre_delete_get` returns the
*list* of response sends it attempts, because the source lacks a `return`
after `res.redirect` and falls through to `res.render`.
-/

/-- A Genre document: opaque identifier plus a name. -/
structure Genre where
  id : Nat
  name : String
deriving Repr, DecidableEq

/-- Modelled from the spec: the Genre model (in `models/genre`, not part of the
controller file) derives `url = "/catalog/genre/" + id`. -/
def Genre.url (g : Genre) : String :=
  "/catalog/genre/" ++ toString g.id

/-- A Book document, read-only for this controller; `genre` is the list of
Genre ids it references. -/
structure Book where
  id : Nat
  title : String
  summary : String
  genre : List Nat
deriving Repr, DecidableEq

/-- The database state the controller manipulates: both collections plus the
counter from which Mongoose mints the next fresh ObjectId. -/
structure DB where
  genres : List Genre
  books : List Book
  nextId : Nat
deriving Repr, DecidableEq

/-- A response sent by a handler.  `render` carries the view name, the `title`
field and the entity data passed in the render context (fields a view does not
receive are `none` / `[]`); `nextError` is `next(err)` with an HTTP status;
`thrown` is an exception that escapes the handler and reaches the generic
error handler via `asyncHandler`. -/
inductive Response where
  | render (view : String) (title : String) (genre : Option Genre)
      (genre_books : List Book) (genre_list : List Genre) (errors : List String)
  | redirect (url : String)
  | nextError (status : Nat) (msg : String)
  | thrown (msg : String)
deriving Repr, DecidableEq

/-- HTTP status of a response: rendering answers 200, a redirect 302, a
`next(err)` carries its own status, and an uncaught exception is answered by
the generic error handler with 500. -/
def Response.httpStatus : Response → Nat
  | .render _ _ _ _ _ _ => 200
  | .redirect _ => 302
  | .nextError s _ => s
  | .thrown _ => 500

/-- A write-path database operation issued by the create/update handlers,
recorded in order. -/
inductive DbOp where
  | findOneByNameCollated (name : String)
  | save (g : Genre)
  | findByIdAndUpdate (id : Nat) (g : Genre)
deriving Repr, DecidableEq

/-- Result of the create/update POST handlers: the new database state, the
response sent, and the trace of database operations performed. -/
structure CUResult where
  db : DB
  resp : Response
  ops : List DbOp
deriving Repr, DecidableEq

/-- validator.js `escape` on one character: `& " ' < > / \ `&#96;`` become
HTML entities (characters named by code point to match the library table). -/
def escapeChar (c : Char) : String :=
  if c.toNat = 38 then "&amp;"
  else if c.toNat = 34 then "&quot;"
  else if c.toNat = 39 then "&#x27;"
  else if c.toNat = 60 then "&lt;"
  else if c.toNat = 62 then "&gt;"
  else if c.toNat = 47 then "&#x2F;"
  else if c.toNat = 92 then "&#x5C;"
  else if c.toNat = 96 then "&#96;"
  else String.singleton c

/-- validator.js `escape` applied to a whole string. -/
def escapeHtml (s : String) : String :=
  String.join (s.toList.map escapeChar)

/-- JS `String.prototype.trim`: strip whitespace from both ends (computed on
the character list so it evaluates by kernel reduction). -/
def strTrim (s : String) : String :=
  ⟨((s.data.dropWhile Char.isWhitespace).reverse.dropWhile Char.isWhitespace).reverse⟩

/-- Lower-casing applied character-wise (computed on the character list so it
evaluates by kernel reduction). -/
def strToLower (s : String) : String :=
  ⟨s.data.map Char.toLower⟩

/-- Case-insensitive string equality, modelling the MongoDB
`collation({ locale: "en", strength: 2 })` comparison used by the duplicate
check. -/
def ciEq (a b : String) : Bool :=
  strToLower a == strToLower b

/-- `Genre.findById`: first document of the collection with the given id. -/
def findById (gs : List Genre) (id : Nat) : Option Genre :=
  gs.find? (fun g => g.id == id)

/-- `Genre.findOne({name}).collation(...)`: first document whose name matches
case-insensitively. -/
def findOneByNameCI (gs : List Genre) (n : String) : Option Genre :=
  gs.find? (fun g => ciEq g.name n)

/-- `Book.find({ genre: id })`: the books whose genre references include id. -/
def booksInGenre (db : DB) (id : Nat) : List Book :=
  db.books.filter (fun b => b.genre.contains id)

/-- Name order used by `Genre.find().sort({ name: 1 })`: ascending by the
code-point order on names. -/
def nameLe (a b : Genre) : Prop :=
  a.name ≤ b.name

instance : DecidableRel nameLe :=
  fun a b => inferInstanceAs (Decidable (a.name ≤ b.name))

instance : IsTotal Genre nameLe :=
  ⟨fun a b => le_total a.name b.name⟩

instance : IsTrans Genre nameLe :=
  ⟨fun _ _ _ hab hbc => le_trans hab hbc⟩

/-- The validation error message attached to the `name` field. -/
def validationMsg : String :=
  "Genre name must contain at least 3 characters"

/-- `genre_list`: fetch all genres sorted by name ascending and render the
list view. -/
def genre_list (db : DB) : Response :=
  Response.render "genre_list" "Genre List" none []
    (List.insertionSort nameLe db.genres) []

/-- `genre_detail`: fetch the genre by id and the books referencing it; 404
via `next(err)` when absent, otherwise render the detail view.  (The source
projects books to `title summary`; the projection is not modelled.) -/
def genre_detail (db : DB) (id : Nat) : Response :=
  match findById db.genres id with
  | none => Response.nextError 404 "Genre not found"
  | some g =>
      Response.render "genre_detail" "Genre Detail" (some g)
        (booksInGenre db id) [] []

/-- `genre_create_post`: trim, validate length ≥ 3, escape; on failure
re-render the form with the sanitized value and the error message; on success
look up an existing genre by case-insensitive name and either redirect to it
or save the new genre and redirect to its url. -/
def genre_create_post (db : DB) (name : String) : CUResult :=
  let trimmed := strTrim name
  let sanitized := escapeHtml trimmed
  let genre : Genre := ⟨db.nextId, sanitized⟩
  if trimmed.length < 3 then
    ⟨db,
     Response.render "genre_form" "Create Genre" (some genre) [] [] [validationMsg],
     []⟩
  else
    match findOneByNameCI db.genres sanitized with
    | some genreExists =>
        ⟨db, Response.redirect genreExists.url,
         [DbOp.findOneByNameCollated sanitized]⟩
    | none =>
        ⟨{ db with genres := db.genres ++ [genre], nextId := db.nextId + 1 },
         Response.redirect genre.url,
         [DbOp.findOneByNameCollated sanitized, DbOp.save genre]⟩

/-- `genre_delete_get`: fetch the genre and its books; when the genre is
absent the source calls `res.redirect` but does not return, so it falls
through and also attempts `res.render` — the value is the list of response
sends attempted, in order. -/
def genre_delete_get (db : DB) (id : Nat) : List Response :=
  let genre := findById db.genres id
  let allBooksInGenre := booksInGenre db id
  (match genre with
   | none => [Response.redirect "/catalog/genres"]
   | some _ => []) ++
  [Response.render "genre_delete" "Delete genre" genre allBooksInGenre [] []]

/-- `genre_delete_post`: the dependent-book check uses the path parameter
`id`, but the deletion targets the form-body field `genreid`. -/
def genre_delete_post (db : DB) (id : Nat) (genreid : Nat) : DB × Response :=
  let genre := findById db.genres id
  let allBooksInGenre := booksInGenre db id
  if allBooksInGenre.length > 0 then
    (db, Response.render "genre_delete" "Delete Genre" genre allBooksInGenre [] [])
  else
    ({ db with genres := db.genres.eraseP (fun g => g.id == genreid) },
     Response.redirect "/catalog/genres")

/-- `genre_update_post`: same validation pipeline as create; on success
`findByIdAndUpdate(id, genre, {})` replaces the document with that id and
returns the pre-update document, whose `url` the redirect reads — when no
document has that id the result is `null` and the `.url` access throws. -/
def genre_update_post (db : DB) (id : Nat) (name : String) : CUResult :=
  let trimmed := strTrim name
  let sanitized := escapeHtml trimmed
  let genre : Genre := ⟨id, sanitized⟩
  if trimmed.length < 3 then
    ⟨db,
     Response.render "genre_form" "Update Genre" (some genre) [] [] [validationMsg],
     []⟩
  else
    match findById db.genres id with
    | none =>
        ⟨db, Response.thrown "Cannot read properties of null",
         [DbOp.findByIdAndUpdate id genre]⟩
    | some updatedGenre =>
        ⟨{ db with
             genres := db.genres.map (fun g => if g.id == id then genre else g) },
         Response.redirect updatedGenre.url,
         [DbOp.findByIdAndUpdate id genre]⟩

/-- Store for the C2 counterexample: genre 2 is referenced by a book, genre 1
is not. -/
def dbC2 : DB :=
  ⟨[⟨1, "A"⟩, ⟨2, "B"⟩], [⟨1, "t", "s", [2]⟩], 3⟩

/-- Empty store used to exercise the absent-genre branch of
`genre_delete_get`. -/
def dbC6 : DB :=
  ⟨[], [], 0⟩

/-! ### Helper lemmas about the collection operations -/

/-- If `a` is a member satisfying `p` and every member satisfying `p` equals
`a`, then `find?` returns `a`. -/
theorem find_first_unique {α : Type} (p : α → Bool) (l : List α) (a : α)
    (ha : a ∈ l) (hpa : p a = true)
    (huniq : ∀ b ∈ l, p b = true → b = a) :
    l.find? p = some a := by
  induction l with
  | nil => cases ha
  | cons x xs ih =>
    rcases List.mem_cons.mp ha with h | h
    · subst h
      exact List.find?_cons_of_pos _ hpa
    · by_cases hx : p x = true
      · have hxa : x = a := huniq x (List.mem_cons_self x xs) hx
        subst hxa
        exact List.find?_cons_of_pos _ hx
      · rw [List.find?_cons_of_neg _ (by simpa using hx)]
        exact ih h (fun b hb hpb => huniq b (List.mem_cons_of_mem x hb) hpb)

/-- With no duplicate ids, `findById` returns any member carrying the id. -/
theorem findById_eq_some (gs : List Genre) (id : Nat) (g : Genre)
    (hg : g ∈ gs) (hid : g.id = id) (hnd : (gs.map Genre.id).Nodup) :
    findById gs id = some g := by
  apply find_first_unique _ _ _ hg (by simp [hid])
  intro b hb hpb
  have hbid : b.id = id := by simpa using hpb
  exact List.inj_on_of_nodup_map hnd hb hg (by rw [hbid, hid])

/-- `findById` misses when no record carries the id. -/
theorem findById_eq_none (gs : List Genre) (id : Nat)
    (h : ∀ g ∈ gs, g.id ≠ id) :
    findById gs id = none := by
  rw [findById, List.find?_eq_none]
  intro g hg
  simp [h g hg]

/-- Erasing by id from a collection without duplicate ids removes every record
with that id and keeps every other record. -/
theorem eraseP_id_facts (gs : List Genre) (id : Nat)
    (hnd : (gs.map Genre.id).Nodup) :
    (∀ g ∈ gs.eraseP (fun g => g.id == id), g.id ≠ id) ∧
    (∀ g ∈ gs, g.id ≠ id → g ∈ gs.eraseP (fun g => g.id == id)) := by
  induction gs with
  | nil => simp
  | cons x xs ih =>
    rw [List.map_cons, List.nodup_cons] at hnd
    obtain ⟨hx, hxs⟩ := hnd
    by_cases hxid : x.id = id
    · rw [List.eraseP_cons_of_pos (by simp [hxid])]
      refine ⟨fun g hg hgid => ?_, fun g hg hgid => ?_⟩
      · exact hx (by rw [hxid, ← hgid]; exact List.mem_map_of_mem Genre.id hg)
      · rcases List.mem_cons.mp hg with he | hm
        · exact absurd (he ▸ hxid) hgid
        · exact hm
    · rw [List.eraseP_cons_of_neg (by simp [hxid])]
      obtain ⟨ih1, ih2⟩ := ih hxs
      refine ⟨fun g hg => ?_, fun g hg hgid => ?_⟩
      · rcases List.mem_cons.mp hg with he | hm
        · exact he ▸ hxid
        · exact ih1 g hm
      · rcases List.mem_cons.mp hg with he | hm
        · exact he ▸ List.mem_cons_self x _
        · exact List.mem_cons_of_mem x (ih2 g hm hgid)

/-- Replacing the record carrying an id by a record with the same id leaves
the id sequence of the collection unchanged. -/
theorem map_replace_ids (gs : List Genre) (id : Nat) (n : String) :
    ((gs.map (fun g => if g.id == id then (⟨id, n⟩ : Genre) else g)).map Genre.id)
      = gs.map Genre.id := by
  rw [List.map_map]
  apply List.map_congr_left
  intro g _
  by_cases h : g.id = id
  · simp [Function.comp, h]
  · simp [Function.comp, h]

/-! ### Claim theorems -/

/-- C1: for a create request whose trimmed name has length ≥ 3, if some genre
matches the submitted (sanitized) name case-insensitively (uniquely, per the
stated name-uniqueness invariant) then nothing is inserted and the response
redirects to that genre's detail URL; otherwise exactly the one new genre is
appended and the response redirects to its detail URL. -/
theorem C1_create_valid_idempotent (db : DB) (s : String)
    (h3 : 3 ≤ (strTrim s).length) :
    (∀ g, g ∈ db.genres → ciEq g.name (escapeHtml (strTrim s)) = true →
       (∀ b ∈ db.genres, ciEq b.name (escapeHtml (strTrim s)) = true → b = g) →
       (genre_create_post db s).db = db ∧
       (genre_create_post db s).resp = Response.redirect g.url) ∧
    ((∀ g ∈ db.genres, ciEq g.name (escapeHtml (strTrim s)) = false) →
       (genre_create_post db s).db.genres =
         db.genres ++ [⟨db.nextId, escapeHtml (strTrim s)⟩] ∧
       (genre_create_post db s).resp =
         Response.redirect (Genre.url ⟨db.nextId, escapeHtml (strTrim s)⟩)) := by
  have hnlt : ¬ (strTrim s).length < 3 := by omega
  constructor
  · intro g hg hci huniq
    have hfind : findOneByNameCI db.genres (escapeHtml (strTrim s)) = some g :=
      find_first_unique _ _ _ hg hci huniq
    simp only [genre_create_post, if_neg hnlt, hfind]
    exact ⟨True.intro, True.intro⟩
  · intro hnone
    have hfind : findOneByNameCI db.genres (escapeHtml (strTrim s)) = none := by
      rw [findOneByNameCI, List.find?_eq_none]
      intro g hg
      simp [hnone g hg]
    simp only [genre_create_post, if_neg hnlt, hfind]
    exact ⟨True.intro, True.intro⟩

/-- C1 witness: creating " fantasy " against a store holding "Fantasy" leaves
the store unchanged and redirects to the existing genre; creating "Poetry" in
an empty store appends it and redirects to the new genre. -/
theorem C1_create_valid_idempotent_witness :
    ((genre_create_post ⟨[⟨0, "Fantasy"⟩], [], 1⟩ " fantasy ").db =
        (⟨[⟨0, "Fantasy"⟩], [], 1⟩ : DB) ∧
     (genre_create_post ⟨[⟨0, "Fantasy"⟩], [], 1⟩ " fantasy ").resp =
        Response.redirect (Genre.url ⟨0, "Fantasy"⟩)) ∧
    ((genre_create_post ⟨[], [], 0⟩ "Poetry").db.genres =
        [] ++ [⟨0, escapeHtml (strTrim "Poetry")⟩] ∧
     (genre_create_post ⟨[], [], 0⟩ "Poetry").resp =
        Response.redirect (Genre.url ⟨0, escapeHtml (strTrim "Poetry")⟩)) :=
  ⟨(C1_create_valid_idempotent ⟨[⟨0, "Fantasy"⟩], [], 1⟩ " fantasy " (by decide)).1
      ⟨0, "Fantasy"⟩ (by decide) (by decide) (by decide),
   (C1_create_valid_idempotent ⟨[], [], 0⟩ "Poetry" (by decide)).2 (by decide)⟩

/-- C2 counterexample: the store `dbC2` has a book referencing genre 2, the id
submitted in the form body, yet the delete request (path id 1, body genreid 2)
removes genre 2 and redirects — the store is not left unchanged although a
book references the deleted id. -/
theorem C2_delete_body_id_counterexample :
    0 < (dbC2.books.filter (fun b => b.genre.contains 2)).length ∧
    (genre_delete_post dbC2 1 2).1.genres = [⟨1, "A"⟩] ∧
    (genre_delete_post dbC2 1 2).2 = Response.redirect "/catalog/genres" := by
  decide

/-- C2 (amended): when the path id and the form-body genreid agree, a delete
request with ≥ 1 dependent book leaves the store unchanged and re-renders the
confirmation view with status 200; with zero dependent books it removes the
genre with that id, keeps all others, and redirects to the genre list. -/
theorem C2_delete_same_id (db : DB) (id : Nat)
    (hnd : (db.genres.map Genre.id).Nodup) :
    (0 < (booksInGenre db id).length →
       (genre_delete_post db id id).1 = db ∧
       (genre_delete_post db id id).2 =
         Response.render "genre_delete" "Delete Genre" (findById db.genres id)
           (booksInGenre db id) [] [] ∧
       ((genre_delete_post db id id).2).httpStatus = 200) ∧
    ((booksInGenre db id).length = 0 →
       (∀ g ∈ (genre_delete_post db id id).1.genres, g.id ≠ id) ∧
       (∀ g ∈ db.genres, g.id ≠ id → g ∈ (genre_delete_post db id id).1.genres) ∧
       (genre_delete_post db id id).2 = Response.redirect "/catalog/genres") := by
  constructor
  · intro hpos
    simp only [genre_delete_post, if_pos hpos]
    exact ⟨True.intro, True.intro, rfl⟩
  · intro hzero
    have hneg : ¬ (booksInGenre db id).length > 0 := by omega
    simp only [genre_delete_post, if_neg hneg]
    obtain ⟨h1, h2⟩ := eraseP_id_facts db.genres id hnd
    exact ⟨h1, h2, True.intro⟩

/-- C2 witness: in `dbC2`, deleting genre 2 (referenced by a book) with
matching path and body ids leaves the store unchanged, while deleting genre 1
(referenced by no book) redirects to the list. -/
theorem C2_delete_same_id_witness :
    (0 < (booksInGenre dbC2 2).length ∧
     (genre_delete_post dbC2 2 2).1 = dbC2) ∧
    ((booksInGenre dbC2 1).length = 0 ∧
     (genre_delete_post dbC2 1 1).2 = Response.redirect "/catalog/genres") :=
  ⟨⟨by decide, ((C2_delete_same_id dbC2 2 (by decide)).1 (by decide)).1⟩,
   ⟨by decide, ((C2_delete_same_id dbC2 1 (by decide)).2 (by decide)).2.2⟩⟩

/-- C3: updating an existing genre with a valid name keeps the id sequence of
the store unchanged (no record under a fresh identifier), leaves a record with
the same identifier and the submitted (sanitized) name, and redirects to that
record's detail URL. -/
theorem C3_update_preserves_identifier (db : DB) (id : Nat) (s : String)
    (h3 : 3 ≤ (strTrim s).length) (g : Genre) (hg : g ∈ db.genres)
    (hid : g.id = id) (hnd : (db.genres.map Genre.id).Nodup) :
    (genre_update_post db id s).db.genres.map Genre.id = db.genres.map Genre.id ∧
    (⟨id, escapeHtml (strTrim s)⟩ : Genre) ∈ (genre_update_post db id s).db.genres ∧
    (genre_update_post db id s).resp =
      Response.redirect ("/catalog/genre/" ++ toString id) := by
  have hnlt : ¬ (strTrim s).length < 3 := by omega
  have hfind := findById_eq_some db.genres id g hg hid hnd
  simp only [genre_update_post, if_neg hnlt, hfind]
  refine ⟨map_replace_ids db.genres id _, ?_, ?_⟩
  · have hm := List.mem_map_of_mem
      (fun g : Genre => if g.id == id then (⟨id, escapeHtml (strTrim s)⟩ : Genre) else g) hg
    simpa [hid] using hm
  · simp [Genre.url, hid]

/-- C3 witness: updating the genre with id 4 to name "NewName" keeps id 4,
stores the new name, and redirects to /catalog/genre/4. -/
theorem C3_update_preserves_identifier_witness :
    (genre_update_post ⟨[⟨4, "Old"⟩], [], 5⟩ 4 "NewName").db.genres.map Genre.id =
      ([⟨4, "Old"⟩] : List Genre).map Genre.id ∧
    (⟨4, escapeHtml (strTrim "NewName")⟩ : Genre) ∈
      (genre_update_post ⟨[⟨4, "Old"⟩], [], 5⟩ 4 "NewName").db.genres ∧
    (genre_update_post ⟨[⟨4, "Old"⟩], [], 5⟩ 4 "NewName").resp =
      Response.redirect ("/catalog/genre/" ++ toString 4) :=
  C3_update_preserves_identifier ⟨[⟨4, "Old"⟩], [], 5⟩ 4 "NewName" (by decide)
    ⟨4, "Old"⟩ (by decide) (by decide) (by decide)

/-- C4: create with a name whose trimmed length is < 3 persists nothing and
re-renders the form with the sanitized submitted value and the validation
error message, answering 200 rather than an error status. -/
theorem C4_create_invalid_rerenders (db : DB) (s : String)
    (hlt : (strTrim s).length < 3) :
    (genre_create_post db s).db = db ∧
    (genre_create_post db s).resp =
      Response.render "genre_form" "Create Genre"
        (some ⟨db.nextId, escapeHtml (strTrim s)⟩) [] [] [validationMsg] ∧
    (genre_create_post db s).resp.httpStatus = 200 := by
  simp only [genre_create_post, if_pos hlt]
  exact ⟨True.intro, True.intro, rfl⟩

/-- C4 witness: creating "ab" in an empty store persists nothing and renders
the form view with the validation message. -/
theorem C4_create_invalid_rerenders_witness :
    (genre_create_post ⟨[], [], 0⟩ "ab").db = (⟨[], [], 0⟩ : DB) ∧
    (genre_create_post ⟨[], [], 0⟩ "ab").resp =
      Response.render "genre_form" "Create Genre"
        (some ⟨0, escapeHtml (strTrim "ab")⟩) [] [] [validationMsg] ∧
    (genre_create_post ⟨[], [], 0⟩ "ab").resp.httpStatus = 200 :=
  C4_create_invalid_rerenders ⟨[], [], 0⟩ "ab" (by decide)

/-- C5: detail of an absent id produces `next(err)` carrying 404 and renders
nothing; detail of a present id renders the detail view with the genre and
exactly the books whose genre references include the id. -/
theorem C5_detail_404_or_render (db : DB) (id : Nat) :
    ((∀ g ∈ db.genres, g.id ≠ id) →
       genre_detail db id = Response.nextError 404 "Genre not found" ∧
       (genre_detail db id).httpStatus = 404) ∧
    (∀ g, g ∈ db.genres → g.id = id → (db.genres.map Genre.id).Nodup →
       genre_detail db id =
         Response.render "genre_detail" "Genre Detail" (some g)
           (db.books.filter (fun b => b.genre.contains id)) [] []) := by
  constructor
  · intro habs
    have hfind := findById_eq_none db.genres id habs
    simp only [genre_detail, hfind]
    exact ⟨True.intro, rfl⟩
  · intro g hg hid hnd
    have hfind := findById_eq_some db.genres id g hg hid hnd
    simp only [genre_detail, hfind]
    rfl

/-- C5 witness: id 5 is absent from the store, so detail answers the 404
error; id 1 is present, so detail renders the genre and its one book. -/
theorem C5_detail_404_or_render_witness :
    genre_detail (⟨[⟨1, "A"⟩], [⟨7, "t", "s", [1]⟩], 2⟩ : DB) 5 =
      Response.nextError 404 "Genre not found" ∧
    genre_detail (⟨[⟨1, "A"⟩], [⟨7, "t", "s", [1]⟩], 2⟩ : DB) 1 =
      Response.render "genre_detail" "Genre Detail" (some ⟨1, "A"⟩)
        (([⟨7, "t", "s", [1]⟩] : List Book).filter (fun b => b.genre.contains 1)) [] [] :=
  ⟨((C5_detail_404_or_render ⟨[⟨1, "A"⟩], [⟨7, "t", "s", [1]⟩], 2⟩ 5).1 (by decide)).1,
   (C5_detail_404_or_render ⟨[⟨1, "A"⟩], [⟨7, "t", "s", [1]⟩], 2⟩ 1).2
     ⟨1, "A"⟩ (by decide) rfl (by decide)⟩

/-- C6: evaluated at the failing input (a store with no genre of id 1), the
delete GET handler sends the redirect to the genre list and then, because the
absent branch does not return, also attempts to render the confirmation view. -/
theorem C6_delete_get_falls_through :
    genre_delete_get dbC6 1 =
      [Response.redirect "/catalog/genres",
       Response.render "genre_delete" "Delete genre" none [] [] []] := by
  decide

/-- C7: for every store, the list handler renders the genre-list view with a
sequence that is a permutation of the stored genres and is sorted ascending by
name, regardless of the order the genres were inserted in. -/
theorem C7_list_sorted_by_name (db : DB) :
    ∃ l, genre_list db = Response.render "genre_list" "Genre List" none [] l [] ∧
      l.Perm db.genres ∧ l.Sorted nameLe :=
  ⟨List.insertionSort nameLe db.genres, rfl,
   List.perm_insertionSort nameLe db.genres,
   List.sorted_insertionSort nameLe db.genres⟩

/-- C8: in a delete request whose path id `p` differs from the form-body
genreid `b`, the dependent-book check runs against `p`; when no book
references `p`, the genre carrying `b` is deleted and redirect issued even
though a book `bk` still references `b` — the deleted record's dependent books
were never checked. -/
theorem C8_delete_checks_path_deletes_body (db : DB) (p b : Nat)
    (g : Genre) (bk : Book) (_hg : g ∈ db.genres) (hgid : g.id = b)
    (hbk : bk ∈ db.books) (href : b ∈ bk.genre)
    (hnone : (booksInGenre db p).length = 0)
    (hnd : (db.genres.map Genre.id).Nodup) :
    (genre_delete_post db p b).2 = Response.redirect "/catalog/genres" ∧
    g ∉ (genre_delete_post db p b).1.genres ∧
    bk ∈ (genre_delete_post db p b).1.books ∧ b ∈ bk.genre := by
  have hneg : ¬ (booksInGenre db p).length > 0 := by omega
  simp only [genre_delete_post, if_neg hneg]
  exact ⟨True.intro,
    fun hmem => (eraseP_id_facts db.genres b hnd).1 g hmem hgid,
    hbk, href⟩

/-- C8 witness: in `dbC2` (book referencing genre 2 only), the request with
path id 1 and body genreid 2 deletes genre 2 while its dependent book
remains. -/
theorem C8_delete_checks_path_deletes_body_witness :
    (genre_delete_post dbC2 1 2).2 = Response.redirect "/catalog/genres" ∧
    (⟨2, "B"⟩ : Genre) ∉ (genre_delete_post dbC2 1 2).1.genres ∧
    (⟨1, "t", "s", [2]⟩ : Book) ∈ (genre_delete_post dbC2 1 2).1.books :=
  have h := C8_delete_checks_path_deletes_body dbC2 1 2 ⟨2, "B"⟩ ⟨1, "t", "s", [2]⟩
    (by decide) (by decide) (by decide) (by decide) (by decide) (by decide)
  ⟨h.1, h.2.1, h.2.2.1⟩

/-- C9: a valid-name update aimed at an id no genre carries does not answer
with a 404 `next(err)`: `findByIdAndUpdate` yields null and the `.url` read
throws, so the failure is an uncaught exception answered generically (500),
and the store is untouched. -/
theorem C9_update_missing_id_throws (db : DB) (id : Nat) (s : String)
    (h3 : 3 ≤ (strTrim s).length) (habs : ∀ g ∈ db.genres, g.id ≠ id) :
    (genre_update_post db id s).resp = Response.thrown "Cannot read properties of null" ∧
    (∀ st m, (genre_update_post db id s).resp ≠ Response.nextError st m) ∧
    (genre_update_post db id s).resp.httpStatus = 500 ∧
    (genre_update_post db id s).db = db := by
  have hnlt : ¬ (strTrim s).length < 3 := by omega
  have hfind := findById_eq_none db.genres id habs
  simp only [genre_update_post, if_neg hnlt, hfind]
  exact ⟨True.intro, fun st m h => Response.noConfusion h, rfl, True.intro⟩

/-- C9 witness: updating id 9 in an empty store with the valid name "History"
throws rather than answering 404. -/
theorem C9_update_missing_id_throws_witness :
    (genre_update_post ⟨[], [], 0⟩ 9 "History").resp =
      Response.thrown "Cannot read properties of null" ∧
    (genre_update_post ⟨[], [], 0⟩ 9 "History").resp.httpStatus = 500 :=
  have h := C9_update_missing_id_throws ⟨[], [], 0⟩ 9 "History" (by decide) (by decide)
  ⟨h.1, h.2.2.1⟩

/-- C10: when validation fails (trimmed name shorter than 3), both the create
and the update handler issue no database operation at all and leave the store
(genres and books alike) unchanged. -/
theorem C10_validation_failure_no_db_ops (db : DB) (id : Nat) (s : String)
    (hlt : (strTrim s).length < 3) :
    (genre_create_post db s).ops = [] ∧ (genre_create_post db s).db = db ∧
    (genre_update_post db id s).ops = [] ∧ (genre_update_post db id s).db = db := by
  simp only [genre_create_post, genre_update_post, if_pos hlt]
  exact ⟨True.intro, True.intro, True.intro, True.intro⟩

/-- C10 witness: submitting "ab" to create and to update (id 0) against a
populated store issues no operation and changes nothing. -/
theorem C10_validation_failure_no_db_ops_witness :
    (genre_create_post ⟨[⟨0, "A"⟩], [⟨1, "t", "s", [0]⟩], 1⟩ "ab").ops = [] ∧
    (genre_create_post ⟨[⟨0, "A"⟩], [⟨1, "t", "s", [0]⟩], 1⟩ "ab").db =
      (⟨[⟨0, "A"⟩], [⟨1, "t", "s", [0]⟩], 1⟩ : DB) ∧
    (genre_update_post ⟨[⟨0, "A"⟩], [⟨1, "t", "s", [0]⟩], 1⟩ 0 "ab").ops = [] ∧
    (genre_update_post ⟨[⟨0, "A"⟩], [⟨1, "t", "s", [0]⟩], 1⟩ 0 "ab").db =
      (⟨[⟨0, "A"⟩], [⟨1, "t", "s", [0]⟩], 1⟩ : DB) :=
  C10_validation_failure_no_db_ops ⟨[⟨0, "A"⟩], [⟨1, "t", "s", [0]⟩], 1⟩ 0 "ab" (by decide)
